import Mathlib

/-!
Verification of the `ramemu` parser (`src/parser.rs`).

Strings are embedded as `List Char` (Rust `&str` is a sequence of Unicode
scalar values, as is Lean's `List Char`).  Each Rust function of the parser
is translated to a Lean function of the same name; the enums `Stmt`,
`Value`, `RegisterValue` and `Label` of `crate::stmt` (whose source file is
not part of the excerpt; their constructors are determined by their uses in
`parser.rs` and by spec section 3) are modelled as inductives.  Numeric
payloads follow the spec's design note: immediates are signed 64-bit
(`i64`, modelled as `Int` with explicit range checks), register indices are
`usize` (modelled as `Nat` with a 64-bit range check), matching
`str::parse::<i64>` / `str::parse::<usize>` in the source.
-/

/-- A RAM-program label: validated identifier text (spec section 3). -/
abbrev Label := List Char

/-- Rust enum `RegisterValue` of `crate::stmt`: direct or indirect register reference. -/
inductive RegisterValue where
  | Direct (index : Nat)
  | Indirect (index : Nat)
  deriving DecidableEq, Repr

/-- Rust enum `Value` of `crate::stmt`: immediate constant or register read. -/
inductive Value where
  | Pure (literal : Int)
  | Register (r : RegisterValue)
  deriving DecidableEq, Repr

/-- Rust enum `Stmt` of `crate::stmt`: the parser's output unit, each variant carrying
the zero-based source line.  Constructor names are the ones used in
`parser.rs` (including the `JumpGreatherZero` spelling). -/
inductive Stmt where
  | Label (name : Label) (line : Nat)
  | Load (v : Value) (line : Nat)
  | Store (r : RegisterValue) (line : Nat)
  | Add (v : Value) (line : Nat)
  | Sub (v : Value) (line : Nat)
  | Mul (v : Value) (line : Nat)
  | Div (v : Value) (line : Nat)
  | Input (r : RegisterValue) (line : Nat)
  | Output (v : Value) (line : Nat)
  | Jump (l : Label) (line : Nat)
  | JumpIfZero (l : Label) (line : Nat)
  | JumpGreatherZero (l : Label) (line : Nat)
  | Halt (line : Nat)
  deriving DecidableEq, Repr

/-- Rust enum `InvalidArgument` of `parser.rs` (the `ArgumentValueMustBeNumberic`
spelling is the source's). -/
inductive InvalidArgument where
  | LabelIsNotValid
  | ArgumentIsRequired
  | ArgumentValueMustBeNumberic
  | PureArgumentIsNotAllowed
  | ArgumentIsNotValid
  deriving DecidableEq, Repr

/-- Rust enum `ParseError` of `parser.rs`.  `UnsupportedOpcode` carries the uppercased
opcode text.  The `unreachable!` panics of the three operand-grammar helpers
are modelled as the otherwise-unused `UnknownError` variant, so "the
unreachable branch is never executed" is exactly "`UnknownError` is never
produced". -/
inductive ParseError where
  | LabelIsNotValid (line : Nat)
  | UnsupportedSyntax (line : Nat)
  | UnsupportedOpcode (line : Nat) (opcode : List Char)
  | ArgumentIsRequired (line : Nat)
  | ArgumentIsNotValid (line : Nat) (kind : InvalidArgument)
  | UnknownError (line : Nat)
  deriving DecidableEq, Repr

/-- Constructor helper `ParseError::pure_argument_not_allowed`. -/
def ParseError.pure_argument_not_allowed (index : Nat) : ParseError :=
  ParseError.ArgumentIsNotValid index InvalidArgument.PureArgumentIsNotAllowed

/-- Constructor helper `ParseError::not_valid_argument`. -/
def ParseError.not_valid_argument (index : Nat) : ParseError :=
  ParseError.ArgumentIsNotValid index InvalidArgument.ArgumentIsNotValid

/-- Constructor helper `ParseError::argument_value_must_be_numeric`. -/
def ParseError.argument_value_must_be_numeric (index : Nat) : ParseError :=
  ParseError.ArgumentIsNotValid index InvalidArgument.ArgumentValueMustBeNumberic

/-- Rust `char::is_whitespace`: the Unicode `White_Space` code points. -/
def isRustWhitespace (c : Char) : Bool :=
  c == ' ' || c == '\t' || c == '\n' || c == '\x0b' || c == '\x0c' || c == '\r' ||
  c == '\u0085' || c == '\u00A0' || c == '\u1680' ||
  ('\u2000' ≤ c && c ≤ '\u200A') ||
  c == '\u2028' || c == '\u2029' || c == '\u202F' || c == '\u205F' || c == '\u3000'

/-- Rust `str::trim`: drop leading and trailing whitespace. -/
def trim (l : List Char) : List Char :=
  ((l.dropWhile isRustWhitespace).reverse.dropWhile isRustWhitespace).reverse

/-- Rust `source.split('#').next().unwrap_or("")`: the text before the first `#`. -/
def stripComment (l : List Char) : List Char :=
  l.takeWhile (fun c => c != '#')

/-- Accumulator loop behind `splitWhitespace`. -/
def splitWSAux : List Char → List Char → List (List Char)
  | [], acc => if acc.isEmpty then [] else [acc.reverse]
  | c :: cs, acc =>
    if isRustWhitespace c then
      if acc.isEmpty then splitWSAux cs [] else acc.reverse :: splitWSAux cs []
    else splitWSAux cs (c :: acc)

/-- Rust `str::split_whitespace`: maximal non-whitespace runs, in order. -/
def splitWhitespace (l : List Char) : List (List Char) :=
  splitWSAux l []

/-- Rust `str::strip_prefix(c)`. -/
def stripPrefixChar (c : Char) (l : List Char) : Option (List Char) :=
  match l with
  | [] => none
  | d :: rest => if d = c then some rest else none

/-- Rust `str::strip_suffix(c)`. -/
def stripSuffixChar (c : Char) (l : List Char) : Option (List Char) :=
  match l.getLast? with
  | some d => if d = c then some l.dropLast else none
  | none => none

/-- Digit-accumulation loop of Rust's integer `FromStr`: every character
must be an ASCII digit. -/
def parseDigitsAux : List Char → Nat → Option Nat
  | [], acc => some acc
  | c :: cs, acc =>
    if c.isDigit then parseDigitsAux cs (acc * 10 + (c.toNat - '0'.toNat))
    else none

/-- Digit run that must be non-empty. -/
def parseDigitsNE (s : List Char) : Option Nat :=
  if s.isEmpty then none else parseDigitsAux s 0

/-- Rust `str::parse::<usize>()`: optional `+`, then one or more ASCII
digits, value below 2^64 (64-bit `usize`). -/
def parseUsize (s : List Char) : Option Nat :=
  let body := match s with
    | [] => ([] : List Char)
    | c :: rest => if c = '+' then rest else c :: rest
  match parseDigitsNE body with
  | some n => if n < 18446744073709551616 then some n else none
  | none => none

/-- Rust `str::parse::<i64>()`: optional sign, then one or more ASCII
digits, value within the `i64` range. -/
def parseI64 (s : List Char) : Option Int :=
  match s with
  | [] => none
  | c :: rest =>
    if c = '-' then
      match parseDigitsNE rest with
      | some n => if n ≤ 9223372036854775808 then some (-(n : Int)) else none
      | none => none
    else if c = '+' then
      match parseDigitsNE rest with
      | some n => if n ≤ 9223372036854775807 then some (n : Int) else none
      | none => none
    else
      match parseDigitsNE (c :: rest) with
      | some n => if n ≤ 9223372036854775807 then some (n : Int) else none
      | none => none

/-- One character of Rust `str::to_uppercase`.  The full Unicode mapping is
reproduced on ASCII and on every code point whose uppercase form contains
ASCII letters (the only ones that can influence opcode recognition); all
remaining characters are kept unchanged, which preserves every comparison
against the all-ASCII opcode strings. -/
def charToUppercase (c : Char) : List Char :=
  if 'a' ≤ c && c ≤ 'z' then [Char.ofNat (c.toNat - 32)]
  else if c = 'ſ' then ['S']
  else if c = 'ı' then ['I']
  else if c = 'ß' then ['S', 'S']
  else if c = 'ﬀ' then ['F', 'F']
  else if c = 'ﬁ' then ['F', 'I']
  else if c = 'ﬂ' then ['F', 'L']
  else if c = 'ﬃ' then ['F', 'F', 'I']
  else if c = 'ﬄ' then ['F', 'F', 'L']
  else if c = 'ﬅ' || c = 'ﬆ' then ['S', 'T']
  else [c]

/-- Rust `str::to_uppercase` (see `charToUppercase`). -/
def toUppercase : List Char → List Char
  | [] => []
  | c :: cs => charToUppercase c ++ toUppercase cs

/-- Function `is_valid_label` of `parser.rs`, kept with the source's redundant
`is_ascii_digit` disjunct.  `Char.isAlpha`, `Char.isAlphanum` and
`Char.isDigit` are the ASCII-only predicates, exactly matching
`is_ascii_alphabetic`, `is_ascii_alphanumeric` and `is_ascii_digit`. -/
def is_valid_label (label : List Char) : Bool :=
  match label with
  | [] => false
  | first :: _ =>
    if !first.isAlpha && first != '_' then false
    else label.all (fun c => c.isAlphanum || c == '_' || c.isDigit)

/-- The "value family" of opcodes, i.e. the first arm of the `match` in
`parse_line`. -/
def isValueOpcode (o : List Char) : Bool :=
  o == "LOAD".data || o == "ADD".data || o == "SUB".data || o == "MUL".data ||
  o == "DIV".data || o == "WRITE".data || o == "OUTPUT".data

/-- The "label family" of opcodes (second arm). -/
def isLabelOpcode (o : List Char) : Bool :=
  o == "JUMP".data || o == "JMP".data || o == "JZ".data || o == "JZERO".data ||
  o == "JGZ".data || o == "JGTZ".data

/-- The "register family" of opcodes (third arm). -/
def isRegisterOpcode (o : List Char) : Bool :=
  o == "STORE".data || o == "INPUT".data || o == "READ".data

/-- The argument block of `parse_with_value` (the `let arg: Value = { .. }`
in the source): `=` immediate, then `*` indirect, then bare direct. -/
def parseValueArg (tail : List Char) (line : Nat) : Except ParseError Value :=
  match stripPrefixChar '=' tail with
  | some rest =>
    match parseI64 rest with
    | some n => Except.ok (Value.Pure n)
    | none => Except.error (ParseError.argument_value_must_be_numeric line)
  | none =>
    match stripPrefixChar '*' tail with
    | some rest =>
      match parseUsize rest with
      | some n => Except.ok (Value.Register (RegisterValue.Indirect n))
      | none => Except.error (ParseError.argument_value_must_be_numeric line)
    | none =>
      match parseUsize tail with
      | some n => Except.ok (Value.Register (RegisterValue.Direct n))
      | none => Except.error (ParseError.not_valid_argument line)

/-- Function `parse_with_value` of `parser.rs`.  The final `unreachable!` is modelled
as `UnknownError` (see `ParseError`). -/
def parse_with_value (head tail : List Char) (line : Nat) : Except ParseError Stmt :=
  match parseValueArg tail line with
  | Except.error e => Except.error e
  | Except.ok arg =>
    if head = "LOAD".data then Except.ok (Stmt.Load arg line)
    else if head = "OUTPUT".data ∨ head = "WRITE".data then Except.ok (Stmt.Output arg line)
    else if head = "ADD".data then Except.ok (Stmt.Add arg line)
    else if head = "SUB".data then Except.ok (Stmt.Sub arg line)
    else if head = "MUL".data then Except.ok (Stmt.Mul arg line)
    else if head = "DIV".data then Except.ok (Stmt.Div arg line)
    else Except.error (ParseError.UnknownError line)

/-- The argument block of `parse_with_register`: `*` indirect, then bare
direct, then the dedicated `=` rejection, then the generic rejection. -/
def parseRegisterArg (tail : List Char) (line : Nat) : Except ParseError RegisterValue :=
  match stripPrefixChar '*' tail with
  | some rest =>
    match parseUsize rest with
    | some n => Except.ok (RegisterValue.Indirect n)
    | none => Except.error (ParseError.argument_value_must_be_numeric line)
  | none =>
    match parseUsize tail with
    | some n => Except.ok (RegisterValue.Direct n)
    | none =>
      if tail.head? = some '=' then Except.error (ParseError.pure_argument_not_allowed line)
      else Except.error (ParseError.not_valid_argument line)

/-- Function `parse_with_register` of `parser.rs`. -/
def parse_with_register (opcode tail : List Char) (line : Nat) : Except ParseError Stmt :=
  match parseRegisterArg tail line with
  | Except.error e => Except.error e
  | Except.ok arg =>
    if opcode = "STORE".data then Except.ok (Stmt.Store arg line)
    else if opcode = "INPUT".data ∨ opcode = "READ".data then Except.ok (Stmt.Input arg line)
    else Except.error (ParseError.UnknownError line)

/-- Function `parse_with_label` of `parser.rs`. -/
def parse_with_label (head tail : List Char) (line : Nat) : Except ParseError Stmt :=
  if is_valid_label tail then
    if head = "JUMP".data ∨ head = "JMP".data then Except.ok (Stmt.Jump tail line)
    else if head = "JZ".data ∨ head = "JZERO".data then Except.ok (Stmt.JumpIfZero tail line)
    else if head = "JGZ".data ∨ head = "JGTZ".data then Except.ok (Stmt.JumpGreatherZero tail line)
    else Except.error (ParseError.UnknownError line)
  else Except.error (ParseError.LabelIsNotValid line)

/-- The body of `parse_line` after the `facts` vector has been computed:
token-count ceiling, label recognition, then case-folded opcode dispatch. -/
def parse_facts (facts : List (List Char)) (line : Nat) : Except ParseError (Option Stmt) :=
  if facts.length > 2 then Except.error (ParseError.UnsupportedSyntax line)
  else
    match facts with
    | [] => Except.ok none
    | f0 :: rest =>
      match stripSuffixChar ':' (trim f0) with
      | some label =>
        if is_valid_label label then Except.ok (some (Stmt.Label label line))
        else Except.error (ParseError.LabelIsNotValid line)
      | none =>
        if isValueOpcode (toUppercase (trim f0)) then
          match rest.head? with
          | none => Except.error (ParseError.ArgumentIsRequired line)
          | some t => Except.map some (parse_with_value (toUppercase (trim f0)) t line)
        else if isLabelOpcode (toUppercase (trim f0)) then
          match rest.head? with
          | none => Except.error (ParseError.ArgumentIsRequired line)
          | some t => Except.map some (parse_with_label (toUppercase (trim f0)) t line)
        else if isRegisterOpcode (toUppercase (trim f0)) then
          match rest.head? with
          | none => Except.error (ParseError.ArgumentIsRequired line)
          | some t => Except.map some (parse_with_register (toUppercase (trim f0)) t line)
        else if toUppercase (trim f0) = "HALT".data then Except.ok (some (Stmt.Halt line))
        else Except.error (ParseError.UnsupportedOpcode line (toUppercase (trim f0)))

/-- Function `parse_line` of `parser.rs`: comment stripping, whitespace tokenization,
then `parse_facts`. -/
def parse_line (source : List Char) (line : Nat) : Except ParseError (Option Stmt) :=
  parse_facts (splitWhitespace (stripComment source)) line

/-- Rust `str::split_inclusive('\n')`: chunks keep their terminating
newline; an empty input yields no chunk. -/
def splitInclusiveNl : List Char → List (List Char)
  | [] => []
  | c :: cs =>
    if c = '\n' then ['\n'] :: splitInclusiveNl cs
    else
      match splitInclusiveNl cs with
      | [] => [[c]]
      | h :: t => (c :: h) :: t

/-- The per-chunk map of Rust `str::lines`: drop a trailing `'\n'`, and a
trailing `'\r'` only when the `'\n'` was present. -/
def linesMap (l : List Char) : List Char :=
  match stripSuffixChar '\n' l with
  | none => l
  | some l' =>
    match stripSuffixChar '\r' l' with
    | none => l'
    | some l'' => l''

/-- Rust `str::lines`. -/
def rustLines (s : List Char) : List (List Char) :=
  (splitInclusiveNl s).map linesMap

/-- Rust `Result<Option<Stmt>, ParseError>::transpose`, as used in the
`filter_map` of `parse`. -/
def transposeExcept : Except ParseError (Option Stmt) → Option (Except ParseError Stmt)
  | Except.ok none => none
  | Except.ok (some s) => some (Except.ok s)
  | Except.error e => some (Except.error e)

/-- Function `parse` of `parser.rs`: enumerate the lines, trim each, parse it, and
drop the empty (blank or comment-only) results. -/
def parse (source : List Char) : List (Except ParseError Stmt) :=
  (((rustLines source).enum).map (fun p => parse_line (trim p.2) p.1)).filterMap
    transposeExcept

/-- A non-empty string with no whitespace and no `#`: exactly the strings
that survive comment stripping and whitespace tokenization as one token. -/
def isToken (t : List Char) : Bool :=
  !t.isEmpty && t.all (fun c => !isRustWhitespace c && c != '#')

/-- The statement constructor selected by `parse_with_value` for each
opcode of the value family (spec section 4.3). -/
def valueStmt (opc : List Char) (v : Value) (line : Nat) : Stmt :=
  if opc = "LOAD".data then Stmt.Load v line
  else if opc = "ADD".data then Stmt.Add v line
  else if opc = "SUB".data then Stmt.Sub v line
  else if opc = "MUL".data then Stmt.Mul v line
  else if opc = "DIV".data then Stmt.Div v line
  else Stmt.Output v line

/-- The statement constructor selected by `parse_with_register` for each
opcode of the register family. -/
def registerStmt (opc : List Char) (r : RegisterValue) (line : Nat) : Stmt :=
  if opc = "STORE".data then Stmt.Store r line else Stmt.Input r line

lemma isToken_ne_nil {t : List Char} (h : isToken t = true) : t ≠ [] := by
  rcases t with _ | ⟨c, cs⟩
  · simp [isToken] at h
  · simp

lemma isToken_chars {t : List Char} (h : isToken t = true) :
    ∀ c ∈ t, isRustWhitespace c = false ∧ c ≠ '#' := by
  intro c hc
  simp only [isToken, Bool.and_eq_true, List.all_eq_true] at h
  have h2 := h.2 c hc
  simp only [Bool.and_eq_true, Bool.not_eq_true'] at h2
  exact ⟨h2.1, by simpa using h2.2⟩

lemma stripComment_eq_self {l : List Char} (h : ∀ c ∈ l, c ≠ '#') :
    stripComment l = l := by
  rw [stripComment, List.takeWhile_eq_self_iff]
  intro x hx
  simpa using h x hx

lemma stripComment_append {l r : List Char} (h : ∀ c ∈ l, c ≠ '#') :
    stripComment (l ++ r) = l ++ stripComment r := by
  induction l with
  | nil => simp
  | cons c cs ih =>
    have hc : (c != '#') = true := by simpa using h c (List.mem_cons_self c cs)
    have ih' := ih (fun d hd => h d (List.mem_cons_of_mem _ hd))
    simp only [stripComment] at ih' ⊢
    simp [List.takeWhile_cons, hc, ih']

lemma splitWSAux_nonws_append {H : List Char}
    (hH : ∀ c ∈ H, isRustWhitespace c = false) :
    ∀ (T acc : List Char), splitWSAux (H ++ T) acc = splitWSAux T (H.reverse ++ acc) := by
  induction H with
  | nil => intro T acc; simp
  | cons c cs ih =>
    intro T acc
    have hc := hH c (List.mem_cons_self c cs)
    simp only [List.cons_append, splitWSAux, hc, Bool.false_eq_true, if_false,
      List.append_eq]
    rw [ih (fun d hd => hH d (List.mem_cons_of_mem _ hd)) T (c :: acc)]
    simp

lemma splitWhitespace_single {H : List Char} (hne : H ≠ [])
    (hH : ∀ c ∈ H, isRustWhitespace c = false) : splitWhitespace H = [H] := by
  have haux := splitWSAux_nonws_append hH [] []
  simp only [List.append_nil] at haux
  rw [splitWhitespace, haux, splitWSAux]
  simp [hne]

lemma splitWhitespace_head {H T : List Char} (hne : H ≠ [])
    (hH : ∀ c ∈ H, isRustWhitespace c = false) :
    splitWhitespace (H ++ ' ' :: T) = H :: splitWhitespace T := by
  rw [splitWhitespace, splitWSAux_nonws_append hH (' ' :: T) [], splitWSAux]
  simp [show isRustWhitespace ' ' = true from rfl, hne, splitWhitespace]

lemma dropWhile_all_false {p : Char → Bool} {l : List Char}
    (h : ∀ c ∈ l, p c = false) : l.dropWhile p = l := by
  cases l with
  | nil => rfl
  | cons c cs => simp [List.dropWhile_cons, h c (List.mem_cons_self c cs)]

lemma trim_eq_self {t : List Char} (h : ∀ c ∈ t, isRustWhitespace c = false) :
    trim t = t := by
  rw [trim, dropWhile_all_false h,
      dropWhile_all_false (fun c hc => h c (List.mem_reverse.mp hc)),
      List.reverse_reverse]

lemma stripSuffixChar_concat (c : Char) (l : List Char) :
    stripSuffixChar c (l ++ [c]) = some l := by
  simp [stripSuffixChar, List.getLast?_concat, List.dropLast_concat]

lemma stripSuffixChar_eq_none {c : Char} {l : List Char}
    (h : l.getLast? ≠ some c) : stripSuffixChar c l = none := by
  cases hl : l.getLast? with
  | none => simp [stripSuffixChar, hl]
  | some d =>
    have hdc : d ≠ c := fun hdc => h (hdc ▸ hl)
    simp [stripSuffixChar, hl, hdc]

lemma toUppercase_append (l r : List Char) :
    toUppercase (l ++ r) = toUppercase l ++ toUppercase r := by
  induction l with
  | nil => simp [toUppercase]
  | cons c cs ih => simp [toUppercase, ih]

lemma parse_line_single {H : List Char} (hH : isToken H = true) (line : Nat) :
    parse_line H line = parse_facts [H] line := by
  rw [parse_line,
      stripComment_eq_self (fun c hc => (isToken_chars hH c hc).2),
      splitWhitespace_single (isToken_ne_nil hH) (fun c hc => (isToken_chars hH c hc).1)]

lemma parse_line_head {H : List Char} (T : List Char) (hH : isToken H = true)
    (line : Nat) :
    parse_line (H ++ ' ' :: T) line =
      parse_facts (H :: splitWhitespace (stripComment T)) line := by
  have hsp : stripComment (' ' :: T) = ' ' :: stripComment T := by
    simp [stripComment, List.takeWhile_cons]
  rw [parse_line, stripComment_append (fun c hc => (isToken_chars hH c hc).2), hsp,
      splitWhitespace_head (isToken_ne_nil hH) (fun c hc => (isToken_chars hH c hc).1)]

lemma parse_line_pair {H T : List Char} (hH : isToken H = true)
    (hT : isToken T = true) (line : Nat) :
    parse_line (H ++ ' ' :: T) line = parse_facts [H, T] line := by
  rw [parse_line_head T hH line,
      stripComment_eq_self (fun c hc => (isToken_chars hT c hc).2),
      splitWhitespace_single (isToken_ne_nil hT) (fun c hc => (isToken_chars hT c hc).1)]

lemma token_char_of_alnum {c : Char} (h : (c.isAlphanum || c == '_') = true) :
    isRustWhitespace c = false ∧ c ≠ '#' := by
  have h' : ('A' ≤ c ∧ c ≤ 'Z') ∨ ('a' ≤ c ∧ c ≤ 'z') ∨ ('0' ≤ c ∧ c ≤ '9') ∨ c = '_' := by
    simpa [Char.isAlphanum, Char.isAlpha, Char.isUpper, Char.isLower, Char.isDigit,
      or_assoc] using h
  have hz : c ≤ 'z' := by
    rcases h' with ⟨_, h2⟩ | ⟨_, h2⟩ | ⟨_, h2⟩ | rfl
    · exact le_trans h2 (by decide)
    · exact h2
    · exact le_trans h2 (by decide)
    · decide
  constructor
  · by_contra hws
    rw [Bool.not_eq_false] at hws
    simp only [isRustWhitespace, Bool.or_eq_true, beq_iff_eq, Bool.and_eq_true,
      decide_eq_true_eq, or_assoc] at hws
    rcases hws with rfl | rfl | rfl | rfl | rfl | rfl | rfl | rfl | rfl |
      ⟨h1, _⟩ | rfl | rfl | rfl | rfl | rfl
    all_goals first
      | exact absurd h' (by decide)
      | exact absurd (le_trans h1 hz) (by decide)
  · rintro rfl
    exact absurd h' (by decide)

lemma alnum_absorb (c : Char) :
    (c.isAlphanum || c == '_' || c.isDigit) = (c.isAlphanum || c == '_') := by
  cases hd : c.isDigit
  · simp [hd]
  · have hA : c.isAlphanum = true := by simp [Char.isAlphanum, hd]
    simp [hA]

lemma is_valid_label_cons (c : Char) (rest : List Char) :
    is_valid_label (c :: rest) =
      ((c.isAlpha || c == '_') && (c :: rest).all (fun d => d.isAlphanum || d == '_')) := by
  cases hA : c.isAlpha <;> cases hU : (c == '_') <;>
    first
      | (have hU' : c = '_' := by simpa using hU
         simp [is_valid_label, hA, hU, hU', alnum_absorb])
      | (have hU' : c ≠ '_' := by simpa using hU
         simp [is_valid_label, hA, hU, hU', alnum_absorb])

lemma is_valid_label_iff (s : List Char) :
    is_valid_label s = true ↔
      s ≠ [] ∧ (∀ c, s.head? = some c → (c.isAlpha = true ∨ c = '_')) ∧
        (∀ c ∈ s, c.isAlphanum = true ∨ c = '_') := by
  cases s with
  | nil => simp [is_valid_label]
  | cons c rest =>
    rw [is_valid_label_cons]
    simp [List.all_eq_true, and_assoc]

lemma label_chars {L : List Char} (h : is_valid_label L = true) :
    ∀ c ∈ L, isRustWhitespace c = false ∧ c ≠ '#' := by
  intro c hc
  rcases L with _ | ⟨d, rest⟩
  · cases hc
  · rw [is_valid_label_cons, Bool.and_eq_true, List.all_eq_true] at h
    exact token_char_of_alnum (h.2 c hc)

lemma isToken_intro {t : List Char} (hne : t ≠ [])
    (h : ∀ c ∈ t, isRustWhitespace c = false ∧ c ≠ '#') : isToken t = true := by
  simp only [isToken, Bool.and_eq_true, List.all_eq_true]
  constructor
  · simpa using hne
  · intro c hc
    simp [(h c hc).1, (h c hc).2]

lemma label_concat_token {L : List Char} (h : is_valid_label L = true) :
    isToken (L ++ [':']) = true := by
  apply isToken_intro (by simp)
  intro c hc
  rcases List.mem_append.mp hc with hcl | hcr
  · exact label_chars h c hcl
  · have : c = ':' := by simpa using hcr
    subst this
    exact ⟨rfl, by decide⟩

lemma stripPrefixChar_cons_self (c : Char) (r : List Char) :
    stripPrefixChar c (c :: r) = some r := by
  simp [stripPrefixChar]

lemma stripPrefixChar_eq_none_head {c : Char} {l : List Char}
    (h : l.head? ≠ some c) : stripPrefixChar c l = none := by
  cases l with
  | nil => rfl
  | cons d rest =>
    have hdc : d ≠ c := by simpa using h
    simp [stripPrefixChar, hdc]

lemma parseUsize_eq_head (r : List Char) : parseUsize ('=' :: r) = none := rfl

lemma parseValueArg_pure {r : List Char} {n : Int} (line : Nat)
    (h : parseI64 r = some n) :
    parseValueArg ('=' :: r) line = Except.ok (Value.Pure n) := by
  simp [parseValueArg, stripPrefixChar_cons_self, h]

lemma parseValueArg_pure_bad {r : List Char} (line : Nat)
    (h : parseI64 r = none) :
    parseValueArg ('=' :: r) line =
      Except.error
        (ParseError.ArgumentIsNotValid line InvalidArgument.ArgumentValueMustBeNumberic) := by
  simp [parseValueArg, stripPrefixChar_cons_self, h,
    ParseError.argument_value_must_be_numeric]

lemma parseValueArg_indirect {r : List Char} {n : Nat} (line : Nat)
    (h : parseUsize r = some n) :
    parseValueArg ('*' :: r) line =
      Except.ok (Value.Register (RegisterValue.Indirect n)) := by
  have h1 : stripPrefixChar '=' ('*' :: r) = none := by simp [stripPrefixChar]
  simp [parseValueArg, h1, stripPrefixChar_cons_self, h]

lemma parseValueArg_indirect_bad {r : List Char} (line : Nat)
    (h : parseUsize r = none) :
    parseValueArg ('*' :: r) line =
      Except.error
        (ParseError.ArgumentIsNotValid line InvalidArgument.ArgumentValueMustBeNumberic) := by
  have h1 : stripPrefixChar '=' ('*' :: r) = none := by simp [stripPrefixChar]
  simp [parseValueArg, h1, stripPrefixChar_cons_self, h,
    ParseError.argument_value_must_be_numeric]

lemma parseValueArg_direct {tail : List Char} {n : Nat} (line : Nat)
    (h1 : tail.head? ≠ some '=') (h2 : tail.head? ≠ some '*')
    (h : parseUsize tail = some n) :
    parseValueArg tail line = Except.ok (Value.Register (RegisterValue.Direct n)) := by
  simp [parseValueArg, stripPrefixChar_eq_none_head h1,
    stripPrefixChar_eq_none_head h2, h]

lemma parseValueArg_direct_bad {tail : List Char} (line : Nat)
    (h1 : tail.head? ≠ some '=') (h2 : tail.head? ≠ some '*')
    (h : parseUsize tail = none) :
    parseValueArg tail line =
      Except.error
        (ParseError.ArgumentIsNotValid line InvalidArgument.ArgumentIsNotValid) := by
  simp [parseValueArg, stripPrefixChar_eq_none_head h1,
    stripPrefixChar_eq_none_head h2, h, ParseError.not_valid_argument]

lemma parseRegisterArg_indirect {r : List Char} {n : Nat} (line : Nat)
    (h : parseUsize r = some n) :
    parseRegisterArg ('*' :: r) line = Except.ok (RegisterValue.Indirect n) := by
  simp [parseRegisterArg, stripPrefixChar_cons_self, h]

lemma parseRegisterArg_indirect_bad {r : List Char} (line : Nat)
    (h : parseUsize r = none) :
    parseRegisterArg ('*' :: r) line =
      Except.error
        (ParseError.ArgumentIsNotValid line InvalidArgument.ArgumentValueMustBeNumberic) := by
  simp [parseRegisterArg, stripPrefixChar_cons_self, h,
    ParseError.argument_value_must_be_numeric]

lemma parseRegisterArg_pure_rejected (r : List Char) (line : Nat) :
    parseRegisterArg ('=' :: r) line =
      Except.error
        (ParseError.ArgumentIsNotValid line InvalidArgument.PureArgumentIsNotAllowed) := by
  have h1 : stripPrefixChar '*' ('=' :: r) = none := by simp [stripPrefixChar]
  simp [parseRegisterArg, h1, parseUsize_eq_head, ParseError.pure_argument_not_allowed]

lemma parseRegisterArg_generic {tail : List Char} (line : Nat)
    (h1 : tail.head? ≠ some '=') (h2 : tail.head? ≠ some '*')
    (h : parseUsize tail = none) :
    parseRegisterArg tail line =
      Except.error
        (ParseError.ArgumentIsNotValid line InvalidArgument.ArgumentIsNotValid) := by
  simp [parseRegisterArg, stripPrefixChar_eq_none_head h2, h, h1,
    ParseError.not_valid_argument]

lemma isValueOpcode_elim {o : List Char} (h : isValueOpcode o = true) :
    o = "LOAD".data ∨ o = "ADD".data ∨ o = "SUB".data ∨ o = "MUL".data ∨
      o = "DIV".data ∨ o = "WRITE".data ∨ o = "OUTPUT".data := by
  simpa [isValueOpcode, or_assoc] using h

lemma isLabelOpcode_elim {o : List Char} (h : isLabelOpcode o = true) :
    o = "JUMP".data ∨ o = "JMP".data ∨ o = "JZ".data ∨ o = "JZERO".data ∨
      o = "JGZ".data ∨ o = "JGTZ".data := by
  simpa [isLabelOpcode, or_assoc] using h

lemma isRegisterOpcode_elim {o : List Char} (h : isRegisterOpcode o = true) :
    o = "STORE".data ∨ o = "INPUT".data ∨ o = "READ".data := by
  simpa [isRegisterOpcode, or_assoc] using h

lemma parse_with_value_eq {opc : List Char} (h : isValueOpcode opc = true)
    (tail : List Char) (line : Nat) :
    parse_with_value opc tail line =
      (parseValueArg tail line).map (fun v => valueStmt opc v line) := by
  rcases isValueOpcode_elim h with rfl | rfl | rfl | rfl | rfl | rfl | rfl <;>
    cases harg : parseValueArg tail line <;>
    simp only [parse_with_value, harg] <;> rfl

lemma parse_with_register_eq {opc : List Char} (h : isRegisterOpcode opc = true)
    (tail : List Char) (line : Nat) :
    parse_with_register opc tail line =
      (parseRegisterArg tail line).map (fun r => registerStmt opc r line) := by
  rcases isRegisterOpcode_elim h with rfl | rfl | rfl <;>
    cases harg : parseRegisterArg tail line <;>
    simp only [parse_with_register, harg] <;> rfl

lemma parseValueArg_no_unknown (tail : List Char) (line j : Nat) :
    parseValueArg tail line ≠ Except.error (ParseError.UnknownError j) := by
  cases h1 : stripPrefixChar '=' tail with
  | some rest =>
    cases h2 : parseI64 rest <;>
      simp [parseValueArg, h1, h2, ParseError.argument_value_must_be_numeric]
  | none =>
    cases h2 : stripPrefixChar '*' tail with
    | some rest =>
      cases h3 : parseUsize rest <;>
        simp [parseValueArg, h1, h2, h3, ParseError.argument_value_must_be_numeric]
    | none =>
      cases h3 : parseUsize tail <;>
        simp [parseValueArg, h1, h2, h3, ParseError.not_valid_argument]

lemma parseRegisterArg_no_unknown (tail : List Char) (line j : Nat) :
    parseRegisterArg tail line ≠ Except.error (ParseError.UnknownError j) := by
  cases h1 : stripPrefixChar '*' tail with
  | some rest =>
    cases h2 : parseUsize rest <;>
      simp [parseRegisterArg, h1, h2, ParseError.argument_value_must_be_numeric]
  | none =>
    cases h2 : parseUsize tail <;>
      by_cases h3 : tail.head? = some '=' <;>
        simp [parseRegisterArg, h1, h2, h3, ParseError.not_valid_argument,
          ParseError.pure_argument_not_allowed]

lemma parse_with_value_no_unknown {opc : List Char} (h : isValueOpcode opc = true)
    (tail : List Char) (line j : Nat) :
    parse_with_value opc tail line ≠ Except.error (ParseError.UnknownError j) := by
  rw [parse_with_value_eq h]
  cases harg : parseValueArg tail line with
  | ok v => simp [Except.map]
  | error e =>
    simp only [Except.map]
    intro hc
    injection hc with hc
    exact parseValueArg_no_unknown tail line j (by rw [harg, hc])

lemma parse_with_register_no_unknown {opc : List Char}
    (h : isRegisterOpcode opc = true) (tail : List Char) (line j : Nat) :
    parse_with_register opc tail line ≠ Except.error (ParseError.UnknownError j) := by
  rw [parse_with_register_eq h]
  cases harg : parseRegisterArg tail line with
  | ok v => simp [Except.map]
  | error e =>
    simp only [Except.map]
    intro hc
    injection hc with hc
    exact parseRegisterArg_no_unknown tail line j (by rw [harg, hc])

lemma parse_with_label_no_unknown {opc : List Char} (h : isLabelOpcode opc = true)
    (tail : List Char) (line j : Nat) :
    parse_with_label opc tail line ≠ Except.error (ParseError.UnknownError j) := by
  rcases isLabelOpcode_elim h with rfl | rfl | rfl | rfl | rfl | rfl <;>
    cases hv : is_valid_label tail <;> simp [parse_with_label, hv]

lemma map_some_ne_unknown {x : Except ParseError Stmt} {j : Nat}
    (hx : ∀ j', x ≠ Except.error (ParseError.UnknownError j')) :
    Except.map some x ≠ Except.error (ParseError.UnknownError j) := by
  cases x with
  | ok s => simp [Except.map]
  | error e =>
    simp only [Except.map]
    intro hc
    injection hc with hc
    exact hx j (by rw [hc])

lemma map_some_ne_ok_none (x : Except ParseError Stmt) :
    Except.map some x ≠ Except.ok none := by
  cases x <;> simp [Except.map]

lemma parse_facts_no_unknown (facts : List (List Char)) (line j : Nat) :
    parse_facts facts line ≠ Except.error (ParseError.UnknownError j) := by
  by_cases hlen : facts.length > 2
  · simp [parse_facts, hlen]
  · cases facts with
    | nil => simp [parse_facts, hlen]
    | cons f0 rest =>
      rw [parse_facts, if_neg hlen]
      cases hss : stripSuffixChar ':' (trim f0) with
      | some label =>
        cases hv : is_valid_label label <;> simp [hss, hv]
      | none =>
        simp only [hss]
        cases hV : isValueOpcode (toUppercase (trim f0)) with
        | true =>
          cases ht : rest.head? with
          | none => simp [hV, ht]
          | some t =>
            simp only [hV, ht, if_true]
            exact map_some_ne_unknown
              (fun j' => parse_with_value_no_unknown hV t line j')
        | false =>
          cases hL : isLabelOpcode (toUppercase (trim f0)) with
          | true =>
            cases ht : rest.head? with
            | none => simp [hV, hL, ht]
            | some t =>
              simp only [hV, hL, ht, if_true, Bool.false_eq_true, if_false]
              exact map_some_ne_unknown
                (fun j' => parse_with_label_no_unknown hL t line j')
          | false =>
            cases hR : isRegisterOpcode (toUppercase (trim f0)) with
            | true =>
              cases ht : rest.head? with
              | none => simp [hV, hL, hR, ht]
              | some t =>
                simp only [hV, hL, hR, ht, if_true, Bool.false_eq_true, if_false]
                exact map_some_ne_unknown
                  (fun j' => parse_with_register_no_unknown hR t line j')
            | false =>
              by_cases hH : toUppercase (trim f0) = "HALT".data <;>
                simp [hV, hL, hR, hH]

lemma parse_line_no_unknown (source : List Char) (line j : Nat) :
    parse_line source line ≠ Except.error (ParseError.UnknownError j) :=
  parse_facts_no_unknown _ line j

lemma parse_facts_ok_none_iff (facts : List (List Char)) (line : Nat) :
    parse_facts facts line = Except.ok none ↔ facts = [] := by
  constructor
  · intro h
    by_cases hlen : facts.length > 2
    · simp [parse_facts, hlen] at h
    · cases facts with
      | nil => rfl
      | cons f0 rest =>
        exfalso
        rw [parse_facts, if_neg hlen] at h
        cases hss : stripSuffixChar ':' (trim f0) with
        | some label =>
          cases hv : is_valid_label label <;> simp [hss, hv] at h
        | none =>
          simp only [hss] at h
          cases hV : isValueOpcode (toUppercase (trim f0)) with
          | true =>
            cases ht : rest.head? with
            | none => simp [hV, ht] at h
            | some t =>
              simp only [hV, ht, if_true] at h
              exact map_some_ne_ok_none _ h
          | false =>
            cases hL : isLabelOpcode (toUppercase (trim f0)) with
            | true =>
              cases ht : rest.head? with
              | none => simp [hV, hL, ht] at h
              | some t =>
                simp only [hV, hL, ht, if_true, Bool.false_eq_true, if_false] at h
                exact map_some_ne_ok_none _ h
            | false =>
              cases hR : isRegisterOpcode (toUppercase (trim f0)) with
              | true =>
                cases ht : rest.head? with
                | none => simp [hV, hL, hR, ht] at h
                | some t =>
                  simp only [hV, hL, hR, ht, if_true, Bool.false_eq_true,
                    if_false] at h
                  exact map_some_ne_ok_none _ h
              | false =>
                by_cases hH : toUppercase (trim f0) = "HALT".data
                · rw [hH] at h
                  simp [show isValueOpcode "HALT".data = false from rfl,
                    show isLabelOpcode "HALT".data = false from rfl,
                    show isRegisterOpcode "HALT".data = false from rfl] at h
                · simp [hV, hL, hR, hH] at h
  · rintro rfl
    rfl

lemma stripComment_idem (l : List Char) :
    stripComment (stripComment l) = stripComment l := by
  simp only [stripComment, List.takeWhile_eq_self_iff]
  exact fun x hx => List.mem_takeWhile_imp (p := fun c => c != '#') hx

lemma parse_line_stripComment (l : List Char) (line : Nat) :
    parse_line l line = parse_line (stripComment l) line := by
  rw [parse_line, parse_line, stripComment_idem]

lemma parse_aux_length (ls : List (List Char)) (n : Nat) :
    (((List.enumFrom n ls).map (fun p => parse_line (trim p.2) p.1)).filterMap
        transposeExcept).length =
      (ls.filter
        (fun l => !(splitWhitespace (stripComment (trim l))).isEmpty)).length := by
  induction ls generalizing n with
  | nil => rfl
  | cons l ls ih =>
    simp only [List.enumFrom, List.map_cons, List.filterMap_cons, List.filter_cons]
    cases hfacts : splitWhitespace (stripComment (trim l)) with
    | nil =>
      have h1 : parse_line (trim l) n = Except.ok none := by
        rw [parse_line, hfacts]; rfl
      simpa [h1, transposeExcept, hfacts] using ih (n + 1)
    | cons f fs =>
      have h1 : parse_line (trim l) n ≠ Except.ok none := by
        rw [parse_line, hfacts]
        intro hc
        exact (List.cons_ne_nil f fs) ((parse_facts_ok_none_iff _ _).mp hc)
      cases hp : parse_line (trim l) n with
      | ok o =>
        cases o with
        | none => exact absurd hp h1
        | some s => simpa [hp, transposeExcept, hfacts] using ih (n + 1)
      | error e => simpa [hp, transposeExcept, hfacts] using ih (n + 1)

lemma parse_length (source : List Char) :
    (parse source).length =
      ((rustLines source).filter
        (fun l => !(splitWhitespace (stripComment (trim l))).isEmpty)).length := by
  rw [parse]
  simpa [List.enum] using parse_aux_length (rustLines source) 0

lemma parse_facts_head_congr {H1 H2 : List Char}
    (hup : toUppercase (trim H1) = toUppercase (trim H2))
    (h1 : stripSuffixChar ':' (trim H1) = none)
    (h2 : stripSuffixChar ':' (trim H2) = none)
    (toks : List (List Char)) (line : Nat) :
    parse_facts (H1 :: toks) line = parse_facts (H2 :: toks) line := by
  by_cases hlen : (H1 :: toks).length > 2
  · have hlen2 : (H2 :: toks).length > 2 := by simpa using hlen
    rw [parse_facts, if_pos hlen, parse_facts, if_pos hlen2]
  · have hlen2 : ¬(H2 :: toks).length > 2 := by simpa using hlen
    rw [parse_facts, if_neg hlen, parse_facts, if_neg hlen2]
    simp only [h1, h2, hup]

lemma parse_facts_synonym_jump (toks : List (List Char)) (line : Nat) :
    parse_facts ("JUMP".data :: toks) line = parse_facts ("JMP".data :: toks) line := by
  match toks with
  | [] => rfl
  | [t] => rfl
  | t1 :: t2 :: ts =>
    rw [parse_facts, if_pos (by simp), parse_facts, if_pos (by simp)]

lemma parse_facts_synonym_jz (toks : List (List Char)) (line : Nat) :
    parse_facts ("JZ".data :: toks) line = parse_facts ("JZERO".data :: toks) line := by
  match toks with
  | [] => rfl
  | [t] => rfl
  | t1 :: t2 :: ts =>
    rw [parse_facts, if_pos (by simp), parse_facts, if_pos (by simp)]

lemma parse_facts_synonym_jgz (toks : List (List Char)) (line : Nat) :
    parse_facts ("JGZ".data :: toks) line = parse_facts ("JGTZ".data :: toks) line := by
  match toks with
  | [] => rfl
  | [t] => rfl
  | t1 :: t2 :: ts =>
    rw [parse_facts, if_pos (by simp), parse_facts, if_pos (by simp)]

lemma parse_facts_synonym_write (toks : List (List Char)) (line : Nat) :
    parse_facts ("WRITE".data :: toks) line = parse_facts ("OUTPUT".data :: toks) line := by
  match toks with
  | [] => rfl
  | [t] => rfl
  | t1 :: t2 :: ts =>
    rw [parse_facts, if_pos (by simp), parse_facts, if_pos (by simp)]

lemma parse_facts_synonym_input (toks : List (List Char)) (line : Nat) :
    parse_facts ("INPUT".data :: toks) line = parse_facts ("READ".data :: toks) line := by
  match toks with
  | [] => rfl
  | [t] => rfl
  | t1 :: t2 :: ts =>
    rw [parse_facts, if_pos (by simp), parse_facts, if_pos (by simp)]

lemma stripSuffixChar_colon_halt {H : List Char}
    (h : toUppercase H = "HALT".data) : stripSuffixChar ':' H = none := by
  rcases List.eq_nil_or_concat H with rfl | ⟨l', a, rfl⟩
  · exact absurd h (by decide)
  · rw [List.concat_eq_append] at h ⊢
    apply stripSuffixChar_eq_none
    rw [List.getLast?_concat]
    intro hc
    injection hc with hc
    subst hc
    rw [toUppercase_append] at h
    have h2 := congrArg List.getLast? h
    rw [show toUppercase [':'] = [':'] from rfl, List.getLast?_concat] at h2
    have hT : ("HALT".data : List Char).getLast? = some 'T' := rfl
    rw [hT] at h2
    injection h2 with h2
    exact absurd h2 (by decide)

lemma value_opcode_token {opc : List Char} (h : isValueOpcode opc = true) :
    isToken opc = true ∧ trim opc = opc ∧ stripSuffixChar ':' opc = none ∧
      toUppercase opc = opc := by
  rcases isValueOpcode_elim h with rfl | rfl | rfl | rfl | rfl | rfl | rfl <;>
    exact ⟨by decide, rfl, rfl, rfl⟩

lemma register_opcode_token {opc : List Char} (h : isRegisterOpcode opc = true) :
    isToken opc = true ∧ trim opc = opc ∧ stripSuffixChar ':' opc = none ∧
      toUppercase opc = opc := by
  rcases isRegisterOpcode_elim h with rfl | rfl | rfl <;>
    exact ⟨by decide, rfl, rfl, rfl⟩

lemma value_not_register {opc : List Char} (h : isValueOpcode opc = true) :
    isRegisterOpcode opc = false := by
  rcases isValueOpcode_elim h with rfl | rfl | rfl | rfl | rfl | rfl | rfl <;> rfl

lemma register_not_value {opc : List Char} (h : isRegisterOpcode opc = true) :
    isValueOpcode opc = false ∧ isLabelOpcode opc = false := by
  rcases isRegisterOpcode_elim h with rfl | rfl | rfl <;> exact ⟨rfl, rfl⟩

lemma parse_facts_value (opc tail : List Char) (line : Nat)
    (hop : isValueOpcode opc = true) :
    parse_facts [opc, tail] line =
      Except.map some (parse_with_value opc tail line) := by
  obtain ⟨-, h1, h2, h3⟩ := value_opcode_token hop
  simp [parse_facts, h1, h2, h3, hop]

lemma parse_facts_register (opc tail : List Char) (line : Nat)
    (hop : isRegisterOpcode opc = true) :
    parse_facts [opc, tail] line =
      Except.map some (parse_with_register opc tail line) := by
  obtain ⟨-, h1, h2, h3⟩ := register_opcode_token hop
  obtain ⟨h4, h5⟩ := register_not_value hop
  simp [parse_facts, h1, h2, h3, hop, h4, h5]

lemma parse_line_value {opc tail : List Char} (hop : isValueOpcode opc = true)
    (htl : isToken tail = true) (line : Nat) :
    parse_line (opc ++ ' ' :: tail) line =
      Except.map some (parse_with_value opc tail line) := by
  rw [parse_line_pair (value_opcode_token hop).1 htl line,
      parse_facts_value opc tail line hop]

lemma parse_line_register {opc tail : List Char} (hop : isRegisterOpcode opc = true)
    (htl : isToken tail = true) (line : Nat) :
    parse_line (opc ++ ' ' :: tail) line =
      Except.map some (parse_with_register opc tail line) := by
  rw [parse_line_pair (register_opcode_token hop).1 htl line,
      parse_facts_register opc tail line hop]

/-- Claim C1: any line whose comment-stripped, whitespace-tokenized form has
more than 2 tokens parses to `UnsupportedSyntax(line)`, whatever the first
token is; the token-count check precedes label recognition and opcode
lookup. -/
theorem unsupported_syntax_token_ceiling (source : List Char) (line : Nat)
    (h : 2 < (splitWhitespace (stripComment source)).length) :
    parse_line source line = Except.error (ParseError.UnsupportedSyntax line) := by
  rw [parse_line, parse_facts.eq_def, if_pos h]

/-- Witness for C1: the line `KoKotinf 1 2` has three tokens and an
unrecognized head, yet still reports `UnsupportedSyntax`. -/
theorem unsupported_syntax_token_ceiling_witness :
    parse_line "KoKotinf 1 2".data 0 =
      Except.error (ParseError.UnsupportedSyntax 0) :=
  unsupported_syntax_token_ceiling "KoKotinf 1 2".data 0 (by decide)

/-- Claim C4: for every string `L` (as a single-token line), `"L:"` parses
to `Label(L, line)` when `L` satisfies the label-validity predicate and to
`LabelIsNotValid(line)` when it fails it. -/
theorem label_line_classification (L : List Char) (line : Nat)
    (hL : ∀ c ∈ L, isRustWhitespace c = false ∧ c ≠ '#') :
    (is_valid_label L = true →
      parse_line (L ++ [':']) line = Except.ok (some (Stmt.Label L line))) ∧
    (is_valid_label L = false →
      parse_line (L ++ [':']) line = Except.error (ParseError.LabelIsNotValid line)) := by
  have hch : ∀ c ∈ L ++ [':'], isRustWhitespace c = false ∧ c ≠ '#' := by
    intro c hc
    rcases List.mem_append.mp hc with h | h
    · exact hL c h
    · have hc' : c = ':' := by simpa using h
      subst hc'
      exact ⟨rfl, by decide⟩
  have htok : isToken (L ++ [':']) = true := isToken_intro (by simp) hch
  constructor <;> intro hv <;>
    simp [parse_line_single htok line, parse_facts,
      trim_eq_self (fun c hc => (hch c hc).1), stripSuffixChar_concat, hv]

/-- Witness for C4 at a valid label (`loop:`) and an invalid one (`9x:`). -/
theorem label_line_classification_witness :
    parse_line "loop:".data 3 = Except.ok (some (Stmt.Label "loop".data 3)) ∧
    parse_line "9x:".data 3 = Except.error (ParseError.LabelIsNotValid 3) :=
  ⟨(label_line_classification "loop".data 3 (by decide)).1 (by decide),
   (label_line_classification "9x".data 3 (by decide)).2 (by decide)⟩

/-- Claim C5: `is_valid_label` holds exactly for non-empty strings whose
first character is an ASCII letter or underscore and whose every character
is ASCII alphanumeric or underscore; in particular it rejects the empty
string and Cyrillic text. -/
theorem is_valid_label_characterization :
    (∀ s : List Char, is_valid_label s = true ↔
      (s ≠ [] ∧ (∀ c, s.head? = some c → (c.isAlpha = true ∨ c = '_')) ∧
        (∀ c ∈ s, c.isAlphanum = true ∨ c = '_'))) ∧
    is_valid_label [] = false ∧
    is_valid_label "фывфыфыв".data = false ∧
    is_valid_label "_ab1".data = true :=
  ⟨is_valid_label_iff, rfl, by decide, by decide⟩

/-- Claim C10: a valid label declaration followed by a second token still
parses as the label alone; the trailing token is silently discarded. -/
theorem label_declaration_ignores_tail (L T : List Char) (line : Nat)
    (hL : is_valid_label L = true) (hT : isToken T = true) :
    parse_line (L ++ ':' :: ' ' :: T) line =
      Except.ok (some (Stmt.Label L line)) := by
  have htok := label_concat_token hL
  have hre : L ++ ':' :: ' ' :: T = (L ++ [':']) ++ ' ' :: T := by simp
  rw [hre, parse_line_pair htok hT line]
  simp [parse_facts, trim_eq_self (fun c hc => (isToken_chars htok c hc).1),
    stripSuffixChar_concat, hL]

/-- Witness for C10: `loop: 17` parses to the label `loop` alone. -/
theorem label_declaration_ignores_tail_witness :
    parse_line "loop: 17".data 5 = Except.ok (some (Stmt.Label "loop".data 5)) :=
  label_declaration_ignores_tail "loop".data "17".data 5 (by decide) (by decide)

/-- Claim C2: value-family opcodes parse their single argument token by
first-match-wins priority — `=` immediate (integer or numeric error), then
`*` indirect (non-negative integer or numeric error), then bare direct
register, then the generic invalid-argument error. -/
theorem value_family_argument_grammar (opc tail : List Char) (line : Nat)
    (hop : isValueOpcode opc = true) (htl : isToken tail = true) :
    (∀ r n, tail = '=' :: r → parseI64 r = some n →
      parse_line (opc ++ ' ' :: tail) line =
        Except.ok (some (valueStmt opc (Value.Pure n) line))) ∧
    (∀ r, tail = '=' :: r → parseI64 r = none →
      parse_line (opc ++ ' ' :: tail) line =
        Except.error (ParseError.ArgumentIsNotValid line
          InvalidArgument.ArgumentValueMustBeNumberic)) ∧
    (∀ r n, tail = '*' :: r → parseUsize r = some n →
      parse_line (opc ++ ' ' :: tail) line =
        Except.ok (some (valueStmt opc
          (Value.Register (RegisterValue.Indirect n)) line))) ∧
    (∀ r, tail = '*' :: r → parseUsize r = none →
      parse_line (opc ++ ' ' :: tail) line =
        Except.error (ParseError.ArgumentIsNotValid line
          InvalidArgument.ArgumentValueMustBeNumberic)) ∧
    (∀ n, tail.head? ≠ some '=' → tail.head? ≠ some '*' → parseUsize tail = some n →
      parse_line (opc ++ ' ' :: tail) line =
        Except.ok (some (valueStmt opc
          (Value.Register (RegisterValue.Direct n)) line))) ∧
    (tail.head? ≠ some '=' → tail.head? ≠ some '*' → parseUsize tail = none →
      parse_line (opc ++ ' ' :: tail) line =
        Except.error (ParseError.ArgumentIsNotValid line
          InvalidArgument.ArgumentIsNotValid)) := by
  refine ⟨?_, ?_, ?_, ?_, ?_, ?_⟩
  · rintro r n rfl hI
    rw [parse_line_value hop htl line, parse_with_value_eq hop,
        parseValueArg_pure line hI]
    rfl
  · rintro r rfl hI
    rw [parse_line_value hop htl line, parse_with_value_eq hop,
        parseValueArg_pure_bad line hI]
    rfl
  · rintro r n rfl hU
    rw [parse_line_value hop htl line, parse_with_value_eq hop,
        parseValueArg_indirect line hU]
    rfl
  · rintro r rfl hU
    rw [parse_line_value hop htl line, parse_with_value_eq hop,
        parseValueArg_indirect_bad line hU]
    rfl
  · intro n h1 h2 hU
    rw [parse_line_value hop htl line, parse_with_value_eq hop,
        parseValueArg_direct line h1 h2 hU]
    rfl
  · intro h1 h2 hU
    rw [parse_line_value hop htl line, parse_with_value_eq hop,
        parseValueArg_direct_bad line h1 h2 hU]
    rfl

/-- Witness for C2: `LOAD =5`, `LOAD *3` and `LOAD 3` produce
`Load(Pure(5))`, `Load(Register(Indirect(3)))` and
`Load(Register(Direct(3)))`. -/
theorem value_family_argument_grammar_witness :
    parse_line "LOAD =5".data 0 = Except.ok (some (Stmt.Load (Value.Pure 5) 0)) ∧
    parse_line "LOAD *3".data 0 =
      Except.ok (some (Stmt.Load (Value.Register (RegisterValue.Indirect 3)) 0)) ∧
    parse_line "LOAD 3".data 0 =
      Except.ok (some (Stmt.Load (Value.Register (RegisterValue.Direct 3)) 0)) :=
  ⟨(value_family_argument_grammar "LOAD".data "=5".data 0 (by decide)
      (by decide)).1 "5".data 5 rfl (by decide),
   (value_family_argument_grammar "LOAD".data "*3".data 0 (by decide)
      (by decide)).2.2.1 "3".data 3 rfl (by decide),
   (value_family_argument_grammar "LOAD".data "3".data 0 (by decide)
      (by decide)).2.2.2.2.1 3 (by decide) (by decide) (by decide)⟩

/-- Claim C3: register-family opcodes distinguish three error sub-kinds —
`=`-prefixed arguments are `PureArgumentIsNotAllowed`, `*`-prefixed
arguments with a non-numeric remainder are `ArgumentValueMustBeNumeric`,
and any other non-numeric argument is the generic `ArgumentIsNotValid`. -/
theorem register_family_error_taxonomy (opc tail : List Char) (line : Nat)
    (hop : isRegisterOpcode opc = true) (htl : isToken tail = true) :
    (∀ r, tail = '=' :: r →
      parse_line (opc ++ ' ' :: tail) line =
        Except.error (ParseError.ArgumentIsNotValid line
          InvalidArgument.PureArgumentIsNotAllowed)) ∧
    (∀ r, tail = '*' :: r → parseUsize r = none →
      parse_line (opc ++ ' ' :: tail) line =
        Except.error (ParseError.ArgumentIsNotValid line
          InvalidArgument.ArgumentValueMustBeNumberic)) ∧
    (tail.head? ≠ some '=' → tail.head? ≠ some '*' → parseUsize tail = none →
      parse_line (opc ++ ' ' :: tail) line =
        Except.error (ParseError.ArgumentIsNotValid line
          InvalidArgument.ArgumentIsNotValid)) := by
  refine ⟨?_, ?_, ?_⟩
  · rintro r rfl
    rw [parse_line_register hop htl line, parse_with_register_eq hop,
        parseRegisterArg_pure_rejected r line]
    rfl
  · rintro r rfl hU
    rw [parse_line_register hop htl line, parse_with_register_eq hop,
        parseRegisterArg_indirect_bad line hU]
    rfl
  · intro h1 h2 hU
    rw [parse_line_register hop htl line, parse_with_register_eq hop,
        parseRegisterArg_generic line h1 h2 hU]
    rfl

/-- Witness for C3: `STORE =1`, `STORE *a`, `STORE a` produce the three
distinct error sub-kinds. -/
theorem register_family_error_taxonomy_witness :
    parse_line "STORE =1".data 0 =
      Except.error (ParseError.ArgumentIsNotValid 0
        InvalidArgument.PureArgumentIsNotAllowed) ∧
    parse_line "STORE *a".data 0 =
      Except.error (ParseError.ArgumentIsNotValid 0
        InvalidArgument.ArgumentValueMustBeNumberic) ∧
    parse_line "STORE a".data 0 =
      Except.error (ParseError.ArgumentIsNotValid 0
        InvalidArgument.ArgumentIsNotValid) :=
  ⟨(register_family_error_taxonomy "STORE".data "=1".data 0 (by decide)
      (by decide)).1 "1".data rfl,
   (register_family_error_taxonomy "STORE".data "*a".data 0 (by decide)
      (by decide)).2.1 "a".data rfl (by decide),
   (register_family_error_taxonomy "STORE".data "a".data 0 (by decide)
      (by decide)).2.2 (by decide) (by decide) (by decide)⟩

/-- Claim C6: everything at and after the first `#` is dropped before
tokenization, and a line with no tokens contributes no item at all to the
output of `parse` — the length of the output equals the number of lines
whose comment-stripped form has at least one token, and a concrete mixed
program confirms that blank and comment-only lines vanish. -/
theorem comment_and_blank_line_behavior :
    (∀ l line, parse_line l line = parse_line (stripComment l) line) ∧
    (∀ l line, splitWhitespace (stripComment l) = [] →
      parse_line l line = Except.ok none) ∧
    (∀ source, (parse source).length =
      ((rustLines source).filter
        (fun l => !(splitWhitespace (stripComment (trim l))).isEmpty)).length) ∧
    parse "  \n# only a comment\nHALT".data = [Except.ok (Stmt.Halt 2)] := by
  refine ⟨parse_line_stripComment, ?_, parse_length, rfl⟩
  intro l line h
  rw [parse_line, h]
  rfl

/-- Witness for C6: a comment-only line parses to no statement and no
error. -/
theorem comment_and_blank_line_behavior_witness :
    parse_line "   # note".data 4 = Except.ok none :=
  comment_and_blank_line_behavior.2.1 "   # note".data 4 (by decide)

/-- Claim C7: opcode recognition is case-insensitive (`load`, `Load`,
`LOAD` behave identically on every tail) and synonym-aware (`JUMP`/`JMP`,
`JZ`/`JZERO`, `JGZ`/`JGTZ`, `WRITE`/`OUTPUT`, `INPUT`/`READ` behave
identically pairwise on every tail). -/
theorem opcode_case_and_synonym_equivalence (T : List Char) (line : Nat) :
    (parse_line ("load".data ++ ' ' :: T) line =
      parse_line ("LOAD".data ++ ' ' :: T) line) ∧
    (parse_line ("Load".data ++ ' ' :: T) line =
      parse_line ("LOAD".data ++ ' ' :: T) line) ∧
    (parse_line ("JUMP".data ++ ' ' :: T) line =
      parse_line ("JMP".data ++ ' ' :: T) line) ∧
    (parse_line ("JZ".data ++ ' ' :: T) line =
      parse_line ("JZERO".data ++ ' ' :: T) line) ∧
    (parse_line ("JGZ".data ++ ' ' :: T) line =
      parse_line ("JGTZ".data ++ ' ' :: T) line) ∧
    (parse_line ("WRITE".data ++ ' ' :: T) line =
      parse_line ("OUTPUT".data ++ ' ' :: T) line) ∧
    (parse_line ("INPUT".data ++ ' ' :: T) line =
      parse_line ("READ".data ++ ' ' :: T) line) := by
  refine ⟨?_, ?_, ?_, ?_, ?_, ?_, ?_⟩
  · rw [parse_line_head T (by decide) line, parse_line_head T (by decide) line]
    exact parse_facts_head_congr (by decide) (by decide) (by decide) _ line
  · rw [parse_line_head T (by decide) line, parse_line_head T (by decide) line]
    exact parse_facts_head_congr (by decide) (by decide) (by decide) _ line
  · rw [parse_line_head T (by decide) line, parse_line_head T (by decide) line]
    exact parse_facts_synonym_jump _ line
  · rw [parse_line_head T (by decide) line, parse_line_head T (by decide) line]
    exact parse_facts_synonym_jz _ line
  · rw [parse_line_head T (by decide) line, parse_line_head T (by decide) line]
    exact parse_facts_synonym_jgz _ line
  · rw [parse_line_head T (by decide) line, parse_line_head T (by decide) line]
    exact parse_facts_synonym_write _ line
  · rw [parse_line_head T (by decide) line, parse_line_head T (by decide) line]
    exact parse_facts_synonym_input _ line

/-- Claim C8: a head that case-folds to `HALT` yields `Halt(line)` both
alone and with an arbitrary second token — the tail is ignored, never an
error. -/
theorem halt_ignores_tail (H T : List Char) (line : Nat)
    (hH : isToken H = true) (hT : isToken T = true)
    (hU : toUppercase H = "HALT".data) :
    parse_line H line = Except.ok (some (Stmt.Halt line)) ∧
    parse_line (H ++ ' ' :: T) line = Except.ok (some (Stmt.Halt line)) := by
  have htr : trim H = H := trim_eq_self (fun c hc => (isToken_chars hH c hc).1)
  have hss : stripSuffixChar ':' H = none := stripSuffixChar_colon_halt hU
  constructor
  · rw [parse_line_single hH line]
    simp [parse_facts, htr, hss, hU,
      show isValueOpcode "HALT".data = false from rfl,
      show isLabelOpcode "HALT".data = false from rfl,
      show isRegisterOpcode "HALT".data = false from rfl]
  · rw [parse_line_pair hH hT line]
    simp [parse_facts, htr, hss, hU,
      show isValueOpcode "HALT".data = false from rfl,
      show isLabelOpcode "HALT".data = false from rfl,
      show isRegisterOpcode "HALT".data = false from rfl]

/-- Witness for C8: `halt` alone and `halt now` both parse to `Halt`. -/
theorem halt_ignores_tail_witness :
    parse_line "halt".data 1 = Except.ok (some (Stmt.Halt 1)) ∧
    parse_line "halt now".data 1 = Except.ok (some (Stmt.Halt 1)) :=
  halt_ignores_tail "halt".data "now".data 1 (by decide) (by decide) (by decide)

/-- Claim C9: no element of the output of `parse` is ever `UnknownError`;
since the `unreachable!` branches of the operand-grammar helpers are
modelled as `UnknownError` and nothing else produces it, the defensive
branches are never executed on any input. -/
theorem no_unknown_error (source : List Char) (r : Except ParseError Stmt)
    (hr : r ∈ parse source) (j : Nat) :
    r ≠ Except.error (ParseError.UnknownError j) := by
  rw [parse] at hr
  rcases List.mem_filterMap.mp hr with ⟨a, ha, hta⟩
  rcases List.mem_map.mp ha with ⟨p, hp, rfl⟩
  cases hpl : parse_line (trim p.2) p.1 with
  | ok o =>
    cases o with
    | none =>
      rw [hpl] at hta
      simp [transposeExcept] at hta
    | some s =>
      rw [hpl] at hta
      simp only [transposeExcept, Option.some.injEq] at hta
      subst hta
      simp
  | error e =>
    rw [hpl] at hta
    simp only [transposeExcept, Option.some.injEq] at hta
    subst hta
    intro hc
    injection hc with hc
    exact parse_line_no_unknown (trim p.2) p.1 j (hc ▸ hpl)

/-- Witness for C9 on a concrete program whose output is non-empty. -/
theorem no_unknown_error_witness :
    Except.ok (Stmt.Halt 0) ≠
      Except.error (ParseError.UnknownError 0 : ParseError) :=
  no_unknown_error "HALT".data (Except.ok (Stmt.Halt 0))
    (by
      rw [show parse "HALT".data = [Except.ok (Stmt.Halt 0)] from rfl]
      exact List.mem_singleton_self _) 0

/-- Witness for C5 at a concrete valid label. -/
theorem is_valid_label_characterization_witness :
    is_valid_label "loop".data = true :=
  (is_valid_label_characterization.1 "loop".data).mpr
    ⟨by decide, by decide, by decide⟩
